import Mathlib

set_option maxHeartbeats 1000000

namespace Trampoline

/-- Machine state of the hooked process: byte-addressed memory, per-address
page protection flags, and the log of successful executable-memory
allocations and frees, in call order. -/
structure MachState where
  mem : Nat → Nat
  prot : Nat → Nat
  allocCalls : List Nat
  freeCalls : List Nat

/-- Target pointer width. The crate builds only for 32 and 64 bit widths
(src/lib.rs defines JMP_SIZE only under those two cfg attributes); the third
constructor models the final else branch of the width dispatch in
src/hook.rs, which is taken only on any other width. -/
inductive Arch where
  | w32
  | w64
  | other
deriving DecidableEq

/-- JMP_SIZE from src/lib.rs: 5 on 32 bit targets, 14 on 64 bit targets.
src/lib.rs gives the constant no value on other widths (the crate does not
build there); the model uses 14 so that the functions stay total. No theorem
about the other-width case depends on this choice beyond the induced length
precondition. -/
def JMP_SIZE : Arch → Nat
  | .w32 => 5
  | .w64 => 14
  | .other => 14

/-- Numeric value of the PAGE_EXECUTE_READWRITE protection flag. -/
def PAGE_EXECUTE_READWRITE : Nat := 0x40

/-- Error type from src/error.rs. The Windows constructor carries the
originating OS error code of the failed Windows API call. -/
inductive Error where
  | ToSmall
  | InvalidTarget
  | Windows (code : Nat)
deriving DecidableEq

/-- Semantics of copy_nonoverlapping into memory: store the listed byte
values at consecutive addresses starting at a; addresses outside the range
keep their previous contents. -/
def writeBytes (m : Nat → Nat) (a : Nat) (bs : List Nat) : Nat → Nat :=
  fun x => if a ≤ x ∧ x < a + bs.length then bs.getD (x - a) 0 else m x

/-- Read n consecutive bytes starting at address a. -/
def readBytes (m : Nat → Nat) (a n : Nat) : List Nat :=
  (List.range n).map fun i => m (a + i)

/-- Semantics of write_bytes: fill n bytes with the value v starting at a. -/
def fillBytes (m : Nat → Nat) (a v n : Nat) : Nat → Nat :=
  writeBytes m a (List.replicate n v)

/-- Set the protection flags of the n addresses starting at a to v. -/
def setRange (p : Nat → Nat) (a n v : Nat) : Nat → Nat :=
  fun x => if a ≤ x ∧ x < a + n then v else p x

/-- Little endian byte decomposition: the first n bytes of the value v. -/
def leBytes : Nat → Nat → List Nat
  | 0, _ => []
  | n + 1, v => v % 256 :: leBytes n (v / 256)

/-- Value of a byte list read as a little endian number. -/
def leVal : List Nat → Nat
  | [] => 0
  | b :: bs => b + 256 * leVal bs

/-- The usize value the 32 bit branch stores one byte past the 0xE9 opcode:
the Rust expression ((dst as isize) - (src as isize)) - 5 cast to usize,
that is, the two's complement residue of dst - src - 5 modulo 2 ^ 32. -/
def disp32 (src dst : Nat) : Nat :=
  ((((dst : Int) - (src : Int) - 5) % (2 ^ 32))).toNat

/-- The 14 byte absolute indirect jump the 64 bit branches assemble: opcode
bytes FF 25 00 00 00 00 followed by the 8 little endian bytes of the target
address (a usize, hence reduced modulo 2 ^ 64). -/
def jmpBytes64 (target : Nat) : List Nat :=
  [0xFF, 0x25, 0x00, 0x00, 0x00, 0x00] ++ leBytes 8 (target % 2 ^ 64)

/-- VirtualProtect model. res is the outcome chosen by the OS for this call:
none for success, some e for failure with OS error code e. On success the
call reports the previous protection of the first address of the range (the
out parameter of the real call) and sets the range to newProt; on failure
nothing changes. -/
def VirtualProtect (res : Option Nat) (st : MachState) (addr len newProt : Nat) :
    Except Nat (Nat × MachState) :=
  match res with
  | some e => .error e
  | none => .ok (st.prot addr, { st with prot := setRange st.prot addr len newProt })

/-- VirtualAlloc model: g is the address the OS returns for this call, with
0 standing for the null pointer returned on failure. A successful commit is
zero initialised and logged in allocCalls; a failed one changes nothing. -/
def VirtualAlloc (g : Nat) (size : Nat) (st : MachState) : Nat × MachState :=
  (g, if g = 0 then st
      else { st with mem := fillBytes st.mem g 0 size,
                     allocCalls := st.allocCalls ++ [g] })

/-- VirtualFree model: res is the outcome chosen by the OS for this call; a
successful release is logged in freeCalls. -/
def VirtualFree (res : Option Nat) (st : MachState) (addr : Nat) :
    Except Nat MachState :=
  match res with
  | some e => .error e
  | none => .ok { st with freeCalls := st.freeCalls ++ [addr] }

/-- The Hook structure from src/hook.rs: source address, patch length, the
saved original bytes, and the active flag. -/
structure Hook where
  src : Nat
  len : Nat
  orig_bytes : List Nat
  active : Bool
deriving DecidableEq

/-- Hook::hook from src/hook.rs lines 133-190. vp1 and vp2 are the OS
outcomes of its two VirtualProtect calls (make writable; restore previous
protection). Steps, as in the source: length check; protect to RWX saving
the previous protection; copy len original bytes out; fill the region with
0x90; write the width-specific jump encoding, or return InvalidTarget on an
unsupported width; restore the previous protection. The source performs the
restore once after the width dispatch; the model repeats that common tail
inside each width branch, which is the same control flow. -/
def Hook.hook (arch : Arch) (vp1 vp2 : Option Nat) (st : MachState)
    (src dst len : Nat) : Except Error Hook × MachState :=
  if len < JMP_SIZE arch then (.error .ToSmall, st)
  else
    match VirtualProtect vp1 st src len PAGE_EXECUTE_READWRITE with
    | .error e => (.error (.Windows e), st)
    | .ok (protection, st1) =>
      let orig_bytes := readBytes st1.mem src len
      let st2 : MachState := { st1 with mem := fillBytes st1.mem src 0x90 len }
      match arch with
      | .w32 =>
        let m3 := writeBytes (writeBytes st2.mem src (leBytes 4 0xE9)) (src + 1)
          (leBytes 4 (disp32 src dst))
        let st3 : MachState := { st2 with mem := m3 }
        match VirtualProtect vp2 st3 src len protection with
        | .error e => (.error (.Windows e), st3)
        | .ok (_, st4) =>
          (.ok { src := src, len := len, orig_bytes := orig_bytes, active := true }, st4)
      | .w64 =>
        let st3 : MachState := { st2 with mem := writeBytes st2.mem src (jmpBytes64 dst) }
        match VirtualProtect vp2 st3 src len protection with
        | .error e => (.error (.Windows e), st3)
        | .ok (_, st4) =>
          (.ok { src := src, len := len, orig_bytes := orig_bytes, active := true }, st4)
      | .other => (.error .InvalidTarget, st2)

/-- Hook::unhook from src/hook.rs lines 193-228. vp1 and vp2 are the OS
outcomes of its two VirtualProtect calls. No-op when inactive; otherwise
protect to RWX, copy the len saved bytes back over the source, restore the
previous protection, and only then clear the active flag. An early failure
return leaves the receiver unchanged. -/
def Hook.unhook (vp1 vp2 : Option Nat) (h : Hook) (st : MachState) :
    Except Error Unit × Hook × MachState :=
  if !h.active then (.ok (), h, st)
  else
    match VirtualProtect vp1 st h.src h.len PAGE_EXECUTE_READWRITE with
    | .error e => (.error (.Windows e), h, st)
    | .ok (protection, st1) =>
      let st2 : MachState := { st1 with mem := writeBytes st1.mem h.src h.orig_bytes }
      match VirtualProtect vp2 st2 h.src h.len protection with
      | .error e => (.error (.Windows e), h, st2)
      | .ok (_, st3) => (.ok (), { h with active := false }, st3)

/-- Drop for Hook, src/hook.rs lines 236-240: a best effort unhook whose
result is discarded, after which the handle no longer exists. -/
def Hook.dropRun (vp1 vp2 : Option Nat) (h : Hook) (st : MachState) : MachState :=
  (Hook.unhook vp1 vp2 h st).2.2

/-- The TrampolineHook structure from src/hook.rs: gateway address and the
embedded Hook. The source names the second field hook; in Lean that name is
taken by the method of the same name, so the model names the field inner. -/
structure TrampolineHook where
  gateway : Nat
  inner : Hook
deriving DecidableEq

/-- TrampolineHook::hook from src/hook.rs lines 253-304. g is the address
VirtualAlloc returns (0 for the null pointer on failure; the source never
tests this result) and vp1, vp2 are the OS outcomes of the VirtualProtect
calls made by the delegated Hook::hook. Steps, as in the source: length
check; allocate len + JMP_SIZE executable bytes; copy len original bytes
from src into the gateway; write the width-specific jump back, or return
InvalidTarget on an unsupported width; delegate to Hook::hook. -/
def TrampolineHook.hook (arch : Arch) (g : Nat) (vp1 vp2 : Option Nat)
    (st : MachState) (src dst len : Nat) : Except Error TrampolineHook × MachState :=
  if len < JMP_SIZE arch then (.error .ToSmall, st)
  else
    let ga := VirtualAlloc g (len + JMP_SIZE arch) st
    let gateway := ga.1
    let st1 := ga.2
    let m2 := writeBytes st1.mem gateway (readBytes st1.mem src len)
    let st2 : MachState := { st1 with mem := m2 }
    match arch with
    | .w32 =>
      let m3 := writeBytes (writeBytes st2.mem (gateway + len) (leBytes 4 0xE9))
        (gateway + len + 1) (leBytes 4 (disp32 gateway src))
      let st3 : MachState := { st2 with mem := m3 }
      match Hook.hook arch vp1 vp2 st3 src dst len with
      | (.error e, st4) => (.error e, st4)
      | (.ok h, st4) => (.ok { gateway := gateway, inner := h }, st4)
    | .w64 =>
      let st3 : MachState := { st2 with mem := writeBytes st2.mem (gateway + len) (jmpBytes64 (src + len)) }
      match Hook.hook arch vp1 vp2 st3 src dst len with
      | (.error e, st4) => (.error e, st4)
      | (.ok h, st4) => (.ok { gateway := gateway, inner := h }, st4)
    | .other => (.error .InvalidTarget, st2)

/-- TrampolineHook::active from src/hook.rs lines 318-320: mirrors the
embedded hook's flag. -/
def TrampolineHook.active (t : TrampolineHook) : Bool := t.inner.active

/-- TrampolineHook::unhook from src/hook.rs lines 307-315. freeRes is the OS
outcome of the VirtualFree call, vp1 and vp2 those of the delegated
Hook::unhook. No-op when inactive; otherwise free the gateway first, then
delegate to the embedded hook's unhook, propagating its error. -/
def TrampolineHook.unhook (freeRes vp1 vp2 : Option Nat) (t : TrampolineHook)
    (st : MachState) : Except Error Unit × TrampolineHook × MachState :=
  if !t.active then (.ok (), t, st)
  else
    match VirtualFree freeRes st t.gateway with
    | .error e => (.error (.Windows e), t, st)
    | .ok st1 =>
      match Hook.unhook vp1 vp2 t.inner st1 with
      | (.error e, h1, st2) => (.error e, { t with inner := h1 }, st2)
      | (.ok _, h1, st2) => (.ok (), { t with inner := h1 }, st2)

/-- Drop for TrampolineHook, src/hook.rs lines 328-332: a best effort unhook
whose result is discarded. -/
def TrampolineHook.dropRun (freeRes vp1 vp2 : Option Nat) (t : TrampolineHook)
    (st : MachState) : MachState :=
  (TrampolineHook.unhook freeRes vp1 vp2 t st).2.2

/-- Whether the bytes in memory at address a form a jump that transfers
control to the address target, per the encodings of src/hook.rs: on 32 bit,
opcode 0xE9 with the following 4 little endian bytes as a two's complement
displacement from the end of the 5 byte instruction; on 64 bit, opcode
FF 25 00 00 00 00 with the following 8 little endian bytes as the absolute
target. Addresses are compared modulo the address-space size. -/
def jumpResolvesTo (arch : Arch) (m : Nat → Nat) (a target : Nat) : Prop :=
  match arch with
  | .w32 => m a = 0xE9 ∧ (a + 5 + leVal (readBytes m (a + 1) 4)) % 2 ^ 32 = target % 2 ^ 32
  | .w64 => readBytes m a 6 = [0xFF, 0x25, 0x00, 0x00, 0x00, 0x00]
      ∧ leVal (readBytes m (a + 6) 8) = target % 2 ^ 64
  | .other => False

/-- A concrete machine state for witnesses: every byte 7, every page
protection 0x20, no allocations. -/
def st0 : MachState :=
  { mem := fun _ => 7, prot := fun _ => 0x20, allocCalls := [], freeCalls := [] }

/-- A concrete machine state whose low addresses hold 3 and whose high
addresses hold 7, so that writes through a null gateway are visible. -/
def stA : MachState :=
  { mem := fun x => if x < 2048 then 3 else 7, prot := fun _ => 0x20,
    allocCalls := [], freeCalls := [] }

/-- Memory after the gateway preparation steps of TrampolineHook::hook on a
64 bit target with allocation address g: zero fill of the fresh block, copy
of the len source bytes to its start, and the absolute jump back to
src + len at its tail. -/
def gwPrepMem64 (m : Nat → Nat) (src len g : Nat) : Nat → Nat :=
  writeBytes (writeBytes (fillBytes m g 0 (len + 14)) g
    (readBytes (fillBytes m g 0 (len + 14)) src len)) (g + len) (jmpBytes64 (src + len))

/-- Memory after the gateway preparation steps of TrampolineHook::hook on a
32 bit target with allocation address g: zero fill, copy of the len source
bytes, the usize store of 0xE9 at the tail, and the displacement store one
byte further. -/
def gwPrepMem32 (m : Nat → Nat) (src len g : Nat) : Nat → Nat :=
  writeBytes (writeBytes (writeBytes (fillBytes m g 0 (len + 5)) g
    (readBytes (fillBytes m g 0 (len + 5)) src len)) (g + len) (leBytes 4 0xE9))
    (g + len + 1) (leBytes 4 (disp32 g src))

instance {e a : Type} [DecidableEq e] [DecidableEq a] : DecidableEq (Except e a) := fun x y =>
  match x, y with
  | .ok u, .ok v =>
    if h : u = v then .isTrue (by rw [h]) else .isFalse (by intro hc; cases hc; exact h rfl)
  | .error u, .error v =>
    if h : u = v then .isTrue (by rw [h]) else .isFalse (by intro hc; cases hc; exact h rfl)
  | .ok _, .error _ => .isFalse (by intro hc; cases hc)
  | .error _, .ok _ => .isFalse (by intro hc; cases hc)

/-- Bytes written by writeBytes land at their offset; other addresses keep
their previous contents. -/
theorem writeBytes_apply (m : Nat → Nat) (a : Nat) (bs : List Nat) (x : Nat) :
    writeBytes m a bs x = if a ≤ x ∧ x < a + bs.length then bs.getD (x - a) 0 else m x := rfl

/-- Addresses outside the written range are untouched. -/
theorem writeBytes_outside (m : Nat → Nat) (a : Nat) (bs : List Nat) (x : Nat)
    (h : x < a ∨ a + bs.length ≤ x) : writeBytes m a bs x = m x := by
  unfold writeBytes
  rw [if_neg]
  omega

/-- readBytes returns as many bytes as requested. -/
theorem readBytes_length (m : Nat → Nat) (a n : Nat) : (readBytes m a n).length = n := by
  simp [readBytes]

/-- Reads from memories that agree on the range agree. -/
theorem readBytes_congr (m1 m2 : Nat → Nat) (a n : Nat)
    (h : ∀ i, i < n → m1 (a + i) = m2 (a + i)) : readBytes m1 a n = readBytes m2 a n := by
  unfold readBytes
  apply List.map_congr_left
  intro i hi
  exact h i (List.mem_range.mp hi)

/-- A read of n + 1 bytes is the first byte followed by a read of n bytes. -/
theorem readBytes_succ (m : Nat → Nat) (a n : Nat) :
    readBytes m a (n + 1) = m a :: readBytes m (a + 1) n := by
  unfold readBytes
  rw [List.range_succ_eq_map]
  simp only [List.map_cons, List.map_map, Nat.add_zero]
  congr 1
  apply List.map_congr_left
  intro i _
  simp [Function.comp]
  congr 1
  omega

/-- A read of n + k bytes splits into reads of the two subranges. -/
theorem readBytes_add (m : Nat → Nat) (a n k : Nat) :
    readBytes m a (n + k) = readBytes m a n ++ readBytes m (a + n) k := by
  unfold readBytes
  rw [List.range_add, List.map_append, List.map_map]
  congr 1
  apply List.map_congr_left
  intro i _
  simp [Function.comp]
  congr 1
  omega

/-- Reading back a range just written returns the written list. -/
theorem readBytes_writeBytes (m : Nat → Nat) (a n : Nat) (bs : List Nat)
    (h : bs.length = n) : readBytes (writeBytes m a bs) a n = bs := by
  subst h
  apply List.ext_getElem
  · simp [readBytes_length]
  · intro i h1 h2
    simp only [readBytes, List.getElem_map, List.getElem_range]
    unfold writeBytes
    rw [if_pos (by simp [readBytes_length] at h1; omega)]
    rw [Nat.add_sub_cancel_left]
    rw [List.getD_eq_getElem]

/-- A read of a range disjoint from a write sees the old memory. -/
theorem readBytes_writeBytes_disjoint (m : Nat → Nat) (a b n : Nat) (bs : List Nat)
    (h : b + n ≤ a ∨ a + bs.length ≤ b) :
    readBytes (writeBytes m a bs) b n = readBytes m b n := by
  apply readBytes_congr
  intro i hi
  apply writeBytes_outside
  omega

/-- A little endian decomposition has the requested number of bytes. -/
theorem leBytes_length (n v : Nat) : (leBytes n v).length = n := by
  induction n generalizing v with
  | zero => simp [leBytes]
  | succ n ih => simp [leBytes, ih]

/-- The assembled 64 bit jump is 14 bytes long. -/
theorem jmpBytes64_length (t : Nat) : (jmpBytes64 t).length = 14 := by
  simp [jmpBytes64, leBytes_length]

/-- Recomposing a little endian decomposition recovers the value modulo the
size of the decomposed range. -/
theorem leVal_leBytes (n v : Nat) : leVal (leBytes n v) = v % 256 ^ n := by
  induction n generalizing v with
  | zero => simp [leBytes, leVal, Nat.mod_one]
  | succ n ih =>
    simp only [leBytes, leVal, ih]
    rw [pow_succ, mul_comm (256 ^ n) 256, Nat.mod_mul]

/-- Unfolding of a successful 64 bit Hook::hook with both protection calls
succeeding. -/
theorem Hook.hook_w64_eq (st : MachState) (src dst len : Nat) (hlen : 14 ≤ len) :
    Hook.hook .w64 none none st src dst len =
      (.ok { src := src, len := len, orig_bytes := readBytes st.mem src len, active := true },
       { mem := writeBytes (fillBytes st.mem src 0x90 len) src (jmpBytes64 dst),
         prot := setRange (setRange st.prot src len PAGE_EXECUTE_READWRITE) src len (st.prot src),
         allocCalls := st.allocCalls, freeCalls := st.freeCalls }) := by
  unfold Hook.hook
  rw [if_neg (by simp only [JMP_SIZE]; omega)]
  rfl

/-- Unfolding of a successful 32 bit Hook::hook with both protection calls
succeeding. -/
theorem Hook.hook_w32_eq (st : MachState) (src dst len : Nat) (hlen : 5 ≤ len) :
    Hook.hook .w32 none none st src dst len =
      (.ok { src := src, len := len, orig_bytes := readBytes st.mem src len, active := true },
       { mem := writeBytes (writeBytes (fillBytes st.mem src 0x90 len) src (leBytes 4 0xE9))
                  (src + 1) (leBytes 4 (disp32 src dst)),
         prot := setRange (setRange st.prot src len PAGE_EXECUTE_READWRITE) src len (st.prot src),
         allocCalls := st.allocCalls, freeCalls := st.freeCalls }) := by
  unfold Hook.hook
  rw [if_neg (by simp only [JMP_SIZE]; omega)]
  rfl

/-- Unfolding of Hook::hook on an unsupported pointer width once the length
check and the first protection call have passed: the InvalidTarget return
happens after the region has been filled with 0x90 under PAGE_EXECUTE_READWRITE,
and the second protection call never runs. -/
theorem Hook.hook_other_eq (vp2 : Option Nat) (st : MachState) (src dst len : Nat)
    (hlen : 14 ≤ len) :
    Hook.hook .other none vp2 st src dst len =
      (.error .InvalidTarget,
       { mem := fillBytes st.mem src 0x90 len,
         prot := setRange st.prot src len PAGE_EXECUTE_READWRITE,
         allocCalls := st.allocCalls, freeCalls := st.freeCalls }) := by
  unfold Hook.hook
  rw [if_neg (by simp only [JMP_SIZE]; omega)]
  rfl

/-- Unfolding of a successful Hook::unhook on an active handle. -/
theorem Hook.unhook_ok_eq (h : Hook) (st : MachState) (ha : h.active = true) :
    Hook.unhook none none h st =
      (.ok (), { h with active := false },
       { mem := writeBytes st.mem h.src h.orig_bytes,
         prot := setRange (setRange st.prot h.src h.len PAGE_EXECUTE_READWRITE)
                   h.src h.len (st.prot h.src),
         allocCalls := st.allocCalls, freeCalls := st.freeCalls }) := by
  unfold Hook.unhook
  rw [ha]
  rfl

/-- Unfolding of Hook::unhook on an active handle when the final restoring
protection call fails: the saved bytes are already back in place, the region
is left PAGE_EXECUTE_READWRITE, and the handle is returned unchanged, still
active. -/
theorem Hook.unhook_vp2_fail_eq (e : Nat) (h : Hook) (st : MachState) (ha : h.active = true) :
    Hook.unhook none (some e) h st =
      (.error (.Windows e), h,
       { mem := writeBytes st.mem h.src h.orig_bytes,
         prot := setRange st.prot h.src h.len PAGE_EXECUTE_READWRITE,
         allocCalls := st.allocCalls, freeCalls := st.freeCalls }) := by
  unfold Hook.unhook
  rw [ha]
  rfl

/-- Hook::unhook on an inactive handle returns success and changes nothing,
whatever the OS would have answered. -/
theorem Hook.unhook_inactive_eq (vp1 vp2 : Option Nat) (h : Hook) (st : MachState)
    (ha : h.active = false) : Hook.unhook vp1 vp2 h st = (.ok (), h, st) := by
  unfold Hook.unhook
  rw [ha]
  rfl

/-- Hook::hook propagates the failure of its first protection call before
touching any state, on every width. -/
theorem Hook.hook_vp1_fail_eq (arch : Arch) (e : Nat) (vp2 : Option Nat) (st : MachState)
    (src dst len : Nat) (hlen : JMP_SIZE arch ≤ len) :
    Hook.hook arch (some e) vp2 st src dst len = (.error (.Windows e), st) := by
  unfold Hook.hook
  rw [if_neg (by omega)]
  rfl

/-- Unfolding of a successful 64 bit TrampolineHook::hook with a nonnull
allocation and both protection calls succeeding. -/
theorem TrampolineHook.tramp_hook_w64_eq (st : MachState) (src dst len g : Nat)
    (hlen : 14 ≤ len) (hg : g ≠ 0) :
    TrampolineHook.hook .w64 g none none st src dst len =
      (.ok { gateway := g,
             inner := { src := src, len := len,
                        orig_bytes := readBytes (gwPrepMem64 st.mem src len g) src len,
                        active := true } },
       { mem := writeBytes (fillBytes (gwPrepMem64 st.mem src len g) src 0x90 len)
                  src (jmpBytes64 dst),
         prot := setRange (setRange st.prot src len PAGE_EXECUTE_READWRITE) src len (st.prot src),
         allocCalls := st.allocCalls ++ [g], freeCalls := st.freeCalls }) := by
  unfold TrampolineHook.hook
  rw [if_neg (by simp only [JMP_SIZE]; omega)]
  simp only [VirtualAlloc, if_neg hg]
  rw [Hook.hook_w64_eq _ src dst len hlen]
  rfl

/-- Unfolding of a successful 32 bit TrampolineHook::hook with a nonnull
allocation and both protection calls succeeding. -/
theorem TrampolineHook.tramp_hook_w32_eq (st : MachState) (src dst len g : Nat)
    (hlen : 5 ≤ len) (hg : g ≠ 0) :
    TrampolineHook.hook .w32 g none none st src dst len =
      (.ok { gateway := g,
             inner := { src := src, len := len,
                        orig_bytes := readBytes (gwPrepMem32 st.mem src len g) src len,
                        active := true } },
       { mem := writeBytes (writeBytes (fillBytes (gwPrepMem32 st.mem src len g) src 0x90 len)
                  src (leBytes 4 0xE9)) (src + 1) (leBytes 4 (disp32 src dst)),
         prot := setRange (setRange st.prot src len PAGE_EXECUTE_READWRITE) src len (st.prot src),
         allocCalls := st.allocCalls ++ [g], freeCalls := st.freeCalls }) := by
  unfold TrampolineHook.hook
  rw [if_neg (by simp only [JMP_SIZE]; omega)]
  simp only [VirtualAlloc, if_neg hg]
  rw [Hook.hook_w32_eq _ src dst len hlen]
  rfl

/-- Unfolding of a 64 bit TrampolineHook::hook whose delegated inner
Hook::hook fails at its first protection call: the gateway stays allocated
and prepared, nothing is freed, and the inner error is returned. -/
theorem TrampolineHook.hook_w64_vp1_fail_eq (e : Nat) (vp2 : Option Nat) (st : MachState)
    (src dst len g : Nat) (hlen : 14 ≤ len) (hg : g ≠ 0) :
    TrampolineHook.hook .w64 g (some e) vp2 st src dst len =
      (.error (.Windows e),
       { mem := gwPrepMem64 st.mem src len g, prot := st.prot,
         allocCalls := st.allocCalls ++ [g], freeCalls := st.freeCalls }) := by
  unfold TrampolineHook.hook
  rw [if_neg (by simp only [JMP_SIZE]; omega)]
  simp only [VirtualAlloc, if_neg hg]
  rw [Hook.hook_vp1_fail_eq .w64 e vp2 _ src dst len (by simp only [JMP_SIZE]; omega)]
  rfl

/-- Unfolding of a 32 bit TrampolineHook::hook whose delegated inner
Hook::hook fails at its first protection call. -/
theorem TrampolineHook.hook_w32_vp1_fail_eq (e : Nat) (vp2 : Option Nat) (st : MachState)
    (src dst len g : Nat) (hlen : 5 ≤ len) (hg : g ≠ 0) :
    TrampolineHook.hook .w32 g (some e) vp2 st src dst len =
      (.error (.Windows e),
       { mem := gwPrepMem32 st.mem src len g, prot := st.prot,
         allocCalls := st.allocCalls ++ [g], freeCalls := st.freeCalls }) := by
  unfold TrampolineHook.hook
  rw [if_neg (by simp only [JMP_SIZE]; omega)]
  simp only [VirtualAlloc, if_neg hg]
  rw [Hook.hook_vp1_fail_eq .w32 e vp2 _ src dst len (by simp only [JMP_SIZE]; omega)]
  rfl

/-- TrampolineHook::unhook on an inactive handle returns success and changes
nothing, whatever the OS would have answered. -/
theorem TrampolineHook.tramp_unhook_inactive_eq (freeRes vp1 vp2 : Option Nat)
    (t : TrampolineHook) (st : MachState) (ha : t.active = false) :
    TrampolineHook.unhook freeRes vp1 vp2 t st = (.ok (), t, st) := by
  unfold TrampolineHook.unhook
  rw [ha]
  rfl

/-- Unfolding of a successful TrampolineHook::unhook on an active handle:
the gateway is freed, the saved bytes are copied back, the protection is
restored, and the embedded hook becomes inactive. -/
theorem TrampolineHook.tramp_unhook_ok_eq (t : TrampolineHook) (st : MachState)
    (ha : t.active = true) :
    TrampolineHook.unhook none none none t st =
      (.ok (), { t with inner := { t.inner with active := false } },
       { mem := writeBytes st.mem t.inner.src t.inner.orig_bytes,
         prot := setRange (setRange st.prot t.inner.src t.inner.len PAGE_EXECUTE_READWRITE)
                   t.inner.src t.inner.len (st.prot t.inner.src),
         allocCalls := st.allocCalls, freeCalls := st.freeCalls ++ [t.gateway] }) := by
  have ha2 : t.inner.active = true := ha
  unfold TrampolineHook.unhook
  rw [ha]
  simp only [Bool.not_true, Bool.false_eq_true, if_false, VirtualFree]
  rw [Hook.unhook_ok_eq t.inner _ ha2]

/-- Hook::hook rejects a length below the architecture minimum up front,
before any OS call, on every width and whatever the OS would have answered. -/
theorem Hook.hook_toSmall_eq (arch : Arch) (vp1 vp2 : Option Nat) (st : MachState)
    (src dst len : Nat) (h : len < JMP_SIZE arch) :
    Hook.hook arch vp1 vp2 st src dst len = (.error .ToSmall, st) := by
  unfold Hook.hook
  rw [if_pos h]

/-- TrampolineHook::hook rejects a length below the architecture minimum up
front, before any OS call. -/
theorem TrampolineHook.tramp_hook_toSmall_eq (arch : Arch) (g : Nat) (vp1 vp2 : Option Nat)
    (st : MachState) (src dst len : Nat) (h : len < JMP_SIZE arch) :
    TrampolineHook.hook arch g vp1 vp2 st src dst len = (.error .ToSmall, st) := by
  unfold TrampolineHook.hook
  rw [if_pos h]

/-- Hook::unhook propagates the failure of its first protection call with
the handle and state unchanged. -/
theorem Hook.unhook_vp1_fail_eq (e : Nat) (vp2 : Option Nat) (h : Hook) (st : MachState)
    (ha : h.active = true) :
    Hook.unhook (some e) vp2 h st = (.error (.Windows e), h, st) := by
  unfold Hook.unhook
  rw [ha]
  rfl

/-- TrampolineHook::unhook propagates a VirtualFree failure with the handle
and state unchanged. -/
theorem TrampolineHook.unhook_free_fail_eq (e : Nat) (vp1 vp2 : Option Nat)
    (t : TrampolineHook) (st : MachState) (ha : t.active = true) :
    TrampolineHook.unhook (some e) vp1 vp2 t st = (.error (.Windows e), t, st) := by
  unfold TrampolineHook.unhook
  rw [ha]
  rfl

/-- TrampolineHook::unhook when the gateway free succeeds but the delegated
Hook::unhook fails at its first protection call: the gateway is already
freed, yet the handle is returned unchanged and still active. -/
theorem TrampolineHook.unhook_inner_vp1_fail_eq (e : Nat) (vp2 : Option Nat)
    (t : TrampolineHook) (st : MachState) (ha : t.active = true) :
    TrampolineHook.unhook none (some e) vp2 t st =
      (.error (.Windows e), t, { st with freeCalls := st.freeCalls ++ [t.gateway] }) := by
  have ha2 : t.inner.active = true := ha
  unfold TrampolineHook.unhook
  rw [ha]
  simp only [Bool.not_true, Bool.false_eq_true, if_false, VirtualFree]
  rw [Hook.unhook_vp1_fail_eq e vp2 t.inner _ ha2]

/-- TrampolineHook::unhook when the gateway free succeeds, the saved bytes
are copied back, but the restoring protection call fails: the gateway is
already freed, yet the handle is returned unchanged and still active. -/
theorem TrampolineHook.unhook_inner_vp2_fail_eq (e : Nat) (t : TrampolineHook)
    (st : MachState) (ha : t.active = true) :
    TrampolineHook.unhook none none (some e) t st =
      (.error (.Windows e), t,
       { mem := writeBytes st.mem t.inner.src t.inner.orig_bytes,
         prot := setRange st.prot t.inner.src t.inner.len PAGE_EXECUTE_READWRITE,
         allocCalls := st.allocCalls, freeCalls := st.freeCalls ++ [t.gateway] }) := by
  have ha2 : t.inner.active = true := ha
  unfold TrampolineHook.unhook
  rw [ha]
  simp only [Bool.not_true, Bool.false_eq_true, if_false, VirtualFree]
  rw [Hook.unhook_vp2_fail_eq e t.inner _ ha2]

/-- Reading 5 bytes over the pair of 32 bit stores of the jump encoder: the
usize store of 0xE9 at a followed by the displacement store at a + 1 leaves
the byte 0xE9 at a and the 4 displacement bytes at a + 1. -/
theorem readBytes_e9_encoding (m : Nat → Nat) (a d : Nat) :
    readBytes (writeBytes (writeBytes m a (leBytes 4 0xE9)) (a + 1) (leBytes 4 d)) a 5
      = 0xE9 :: leBytes 4 d := by
  have h5 : (5 : Nat) = 4 + 1 := rfl
  rw [h5, readBytes_succ]
  congr 1
  · rw [writeBytes_outside _ _ _ _ (by omega)]
    rw [writeBytes_apply, leBytes_length, if_pos (by omega), Nat.sub_self]
    decide
  · exact readBytes_writeBytes _ _ _ _ (leBytes_length 4 _)

/-- C1: for every source address, destination address and length, a
successful Hook::hook followed by ending the hook's life with the OS calls
succeeding, either through an explicit successful Hook::unhook or through
destruction of the handle without an unhook call, restores the bytes at
source exactly to their pre hook content. -/
theorem hook_unhook_restores_source_bytes (arch : Arch) (st : MachState)
    (src dst len : Nat) (hkv : Hook)
    (hok : (Hook.hook arch none none st src dst len).1 = .ok hkv) :
    readBytes ((Hook.unhook none none hkv (Hook.hook arch none none st src dst len).2).2.2).mem src len
      = readBytes st.mem src len
  ∧ readBytes (Hook.dropRun none none hkv (Hook.hook arch none none st src dst len).2).mem src len
      = readBytes st.mem src len := by
  cases arch with
  | w32 =>
    by_cases hlen : 5 ≤ len
    · rw [Hook.hook_w32_eq st src dst len hlen] at hok
      have h2 : Except.ok (ε := Error) (Hook.mk src len (readBytes st.mem src len) true)
          = Except.ok hkv := hok
      cases h2
      unfold Hook.dropRun
      rw [Hook.unhook_ok_eq _ _ rfl]
      exact ⟨readBytes_writeBytes _ _ _ _ (readBytes_length st.mem src len),
             readBytes_writeBytes _ _ _ _ (readBytes_length st.mem src len)⟩
    · rw [Hook.hook_toSmall_eq .w32 none none st src dst len
        (by simp only [JMP_SIZE]; omega)] at hok
      cases hok
  | w64 =>
    by_cases hlen : 14 ≤ len
    · rw [Hook.hook_w64_eq st src dst len hlen] at hok
      have h2 : Except.ok (ε := Error) (Hook.mk src len (readBytes st.mem src len) true)
          = Except.ok hkv := hok
      cases h2
      unfold Hook.dropRun
      rw [Hook.unhook_ok_eq _ _ rfl]
      exact ⟨readBytes_writeBytes _ _ _ _ (readBytes_length st.mem src len),
             readBytes_writeBytes _ _ _ _ (readBytes_length st.mem src len)⟩
    · rw [Hook.hook_toSmall_eq .w64 none none st src dst len
        (by simp only [JMP_SIZE]; omega)] at hok
      cases hok
  | other =>
    by_cases hlen : 14 ≤ len
    · rw [Hook.hook_other_eq none st src dst len hlen] at hok
      cases hok
    · rw [Hook.hook_toSmall_eq .other none none st src dst len
        (by simp only [JMP_SIZE]; omega)] at hok
      cases hok

theorem hook_unhook_restores_source_bytes_witness :
    (Hook.hook .w64 none none st0 1000 2000 14).1
      = .ok (Hook.mk 1000 14 (List.replicate 14 7) true)
  ∧ (readBytes ((Hook.unhook none none (Hook.mk 1000 14 (List.replicate 14 7) true)
        (Hook.hook .w64 none none st0 1000 2000 14).2).2.2).mem 1000 14
      = readBytes st0.mem 1000 14
    ∧ readBytes (Hook.dropRun none none (Hook.mk 1000 14 (List.replicate 14 7) true)
        (Hook.hook .w64 none none st0 1000 2000 14).2).mem 1000 14
      = readBytes st0.mem 1000 14) :=
  ⟨by decide,
   hook_unhook_restores_source_bytes .w64 st0 1000 2000 14
     (Hook.mk 1000 14 (List.replicate 14 7) true) (by decide)⟩

/-- C4: after a successful Hook::hook, the first bytes written at source
encode the jump of the architecture: on a 32 bit target the byte 0xE9
followed by the 4 byte signed little endian value of dst - src - 5, and on
a 64 bit target the bytes FF 25 00 00 00 00 followed by the 8 byte little
endian destination address. -/
theorem hook_writes_jump_encoding (st : MachState) (src dst len : Nat) :
    (5 ≤ len →
      readBytes ((Hook.hook .w32 none none st src dst len).2).mem src 5
        = 0xE9 :: leBytes 4 (disp32 src dst))
  ∧ (14 ≤ len → dst < 2 ^ 64 →
      readBytes ((Hook.hook .w64 none none st src dst len).2).mem src 14
        = [0xFF, 0x25, 0x00, 0x00, 0x00, 0x00] ++ leBytes 8 dst) := by
  constructor
  · intro hlen
    rw [Hook.hook_w32_eq st src dst len hlen]
    exact readBytes_e9_encoding (fillBytes st.mem src 0x90 len) src (disp32 src dst)
  · intro hlen hdst
    rw [Hook.hook_w64_eq st src dst len hlen]
    have h1 : readBytes (writeBytes (fillBytes st.mem src 0x90 len) src (jmpBytes64 dst)) src 14
        = [0xFF, 0x25, 0x00, 0x00, 0x00, 0x00] ++ leBytes 8 dst := by
      rw [readBytes_writeBytes _ _ _ _ (jmpBytes64_length dst)]
      unfold jmpBytes64
      rw [Nat.mod_eq_of_lt hdst]
    exact h1

theorem hook_writes_jump_encoding_witness :
    readBytes ((Hook.hook .w32 none none st0 1000 2000 21).2).mem 1000 5
      = 0xE9 :: leBytes 4 (disp32 1000 2000)
  ∧ readBytes ((Hook.hook .w64 none none st0 1000 2000 21).2).mem 1000 14
      = [0xFF, 0x25, 0x00, 0x00, 0x00, 0x00] ++ leBytes 8 2000 :=
  ⟨(hook_writes_jump_encoding st0 1000 2000 21).1 (by decide),
   (hook_writes_jump_encoding st0 1000 2000 21).2 (by decide) (by decide)⟩

/-- C9: unhook on an inactive handle, for Hook as for TrampolineHook, is a
no-op that succeeds whatever the OS would have answered, and a successful
unhook leaves the handle inactive, so a second unhook after a successful
one succeeds and changes no state. -/
theorem unhook_inactive_noop_idempotent (vp1 vp2 freeRes : Option Nat)
    (h : Hook) (t : TrampolineHook) (st : MachState)
    (hh : h.active = false) (ht : t.active = false) :
    Hook.unhook vp1 vp2 h st = (.ok (), h, st)
  ∧ TrampolineHook.unhook freeRes vp1 vp2 t st = (.ok (), t, st)
  ∧ (∀ (su : MachState) (w1 w2 : Option Nat) (h2 : Hook),
      (Hook.unhook w1 w2 h2 su).1 = .ok () → ((Hook.unhook w1 w2 h2 su).2.1).active = false)
  ∧ (∀ (su : MachState) (f w1 w2 : Option Nat) (t2 : TrampolineHook),
      (TrampolineHook.unhook f w1 w2 t2 su).1 = .ok () →
        ((TrampolineHook.unhook f w1 w2 t2 su).2.1).active = false) := by
  refine ⟨Hook.unhook_inactive_eq vp1 vp2 h st hh,
          TrampolineHook.tramp_unhook_inactive_eq freeRes vp1 vp2 t st ht, ?_, ?_⟩
  · intro su w1 w2 h2 hok
    by_cases ha : h2.active = true
    · cases w1 with
      | some e =>
        rw [Hook.unhook_vp1_fail_eq e w2 h2 su ha] at hok
        cases hok
      | none =>
        cases w2 with
        | some e =>
          rw [Hook.unhook_vp2_fail_eq e h2 su ha] at hok
          cases hok
        | none =>
          rw [Hook.unhook_ok_eq h2 su ha]
    · have ha2 : h2.active = false := by
        cases hb : h2.active
        · rfl
        · exact absurd hb ha
      rw [Hook.unhook_inactive_eq w1 w2 h2 su ha2]
      exact ha2
  · intro su f w1 w2 t2 hok
    by_cases ha : t2.active = true
    · cases f with
      | some e =>
        rw [TrampolineHook.unhook_free_fail_eq e w1 w2 t2 su ha] at hok
        cases hok
      | none =>
        cases w1 with
        | some e =>
          rw [TrampolineHook.unhook_inner_vp1_fail_eq e w2 t2 su ha] at hok
          cases hok
        | none =>
          cases w2 with
          | some e =>
            rw [TrampolineHook.unhook_inner_vp2_fail_eq e t2 su ha] at hok
            cases hok
          | none =>
            rw [TrampolineHook.tramp_unhook_ok_eq t2 su ha]
            rfl
    · have ha2 : t2.active = false := by
        cases hb : t2.active
        · rfl
        · exact absurd hb ha
      rw [TrampolineHook.tramp_unhook_inactive_eq f w1 w2 t2 su ha2]
      exact ha2

theorem unhook_inactive_noop_idempotent_witness :
    Hook.unhook none none (Hook.mk 1000 14 (List.replicate 14 7) false) st0
      = (.ok (), Hook.mk 1000 14 (List.replicate 14 7) false, st0)
  ∧ TrampolineHook.unhook none none none
      (TrampolineHook.mk 5000 (Hook.mk 1000 14 (List.replicate 14 7) false)) st0
      = (.ok (), TrampolineHook.mk 5000 (Hook.mk 1000 14 (List.replicate 14 7) false), st0) :=
  ⟨(unhook_inactive_noop_idempotent none none none
      (Hook.mk 1000 14 (List.replicate 14 7) false)
      (TrampolineHook.mk 5000 (Hook.mk 1000 14 (List.replicate 14 7) false)) st0
      (by decide) (by decide)).1,
   (unhook_inactive_noop_idempotent none none none
      (Hook.mk 1000 14 (List.replicate 14 7) false)
      (TrampolineHook.mk 5000 (Hook.mk 1000 14 (List.replicate 14 7) false)) st0
      (by decide) (by decide)).2.1⟩

/-- C10: if Hook::unhook has copied the saved bytes back to source but the
final protection restoring call fails, it returns the error without
clearing the active flag: the source already holds its original bytes, the
region is left PAGE_EXECUTE_READWRITE, active() still answers true, and a
later unhook on the same handle performs the protection change and byte
copy again, succeeding. -/
theorem unhook_restore_fail_keeps_active (e : Nat) (h : Hook) (st : MachState)
    (ha : h.active = true) (hlen : h.orig_bytes.length = h.len) :
    (Hook.unhook none (some e) h st).1 = .error (.Windows e)
  ∧ (Hook.unhook none (some e) h st).2.1 = h
  ∧ readBytes ((Hook.unhook none (some e) h st).2.2).mem h.src h.len = h.orig_bytes
  ∧ ((Hook.unhook none (some e) h st).2.2).prot
      = setRange st.prot h.src h.len PAGE_EXECUTE_READWRITE
  ∧ (Hook.unhook none none h ((Hook.unhook none (some e) h st).2.2)).1 = .ok ()
  ∧ ((Hook.unhook none none h ((Hook.unhook none (some e) h st).2.2)).2.1).active = false
  ∧ readBytes ((Hook.unhook none none h ((Hook.unhook none (some e) h st).2.2)).2.2).mem
      h.src h.len = h.orig_bytes := by
  rw [Hook.unhook_vp2_fail_eq e h st ha]
  rw [Hook.unhook_ok_eq h _ ha]
  refine ⟨rfl, rfl, ?_, rfl, rfl, ?_, ?_⟩
  · exact readBytes_writeBytes _ _ _ _ hlen
  · rfl
  · exact readBytes_writeBytes _ _ _ _ hlen

theorem unhook_restore_fail_keeps_active_witness :
    (Hook.unhook none (some 3) (Hook.mk 1000 14 (List.replicate 14 9) true) st0).1
      = .error (.Windows 3)
  ∧ (Hook.unhook none (some 3) (Hook.mk 1000 14 (List.replicate 14 9) true) st0).2.1
      = Hook.mk 1000 14 (List.replicate 14 9) true :=
  ⟨(unhook_restore_fail_keeps_active 3 (Hook.mk 1000 14 (List.replicate 14 9) true) st0
      (by decide) (by decide)).1,
   (unhook_restore_fail_keeps_active 3 (Hook.mk 1000 14 (List.replicate 14 9) true) st0
      (by decide) (by decide)).2.1⟩

/-- Toggling a uniformly protected range to some value and back to the
remembered previous value of its first address restores the protection map
exactly. -/
theorem setRange_restore (p : Nat → Nat) (a n v : Nat)
    (huni : ∀ i, i < n → p (a + i) = p a) :
    setRange (setRange p a n v) a n (p a) = p := by
  funext x
  unfold setRange
  by_cases hx : a ≤ x ∧ x < a + n
  · rw [if_pos hx]
    have h1 := huni (x - a) (by omega)
    have h2 : a + (x - a) = x := by omega
    rw [h2] at h1
    exact h1.symm
  · rw [if_neg hx, if_neg hx]

/-- C2 (amended): a ToSmall failure of Hook::hook or of TrampolineHook::hook
is raised before any OS call or memory write, leaving the machine state
exactly as it was; an InvalidTarget failure, possible only on a pointer
width other than 32 and 64 bits, is raised by Hook::hook only after
mutation: the first protection change has been made and the target region
has been overwritten with the 0x90 filler, with the region left
PAGE_EXECUTE_READWRITE. -/
theorem validation_failures_and_their_effects (arch : Arch) (vp1 vp2 : Option Nat)
    (g : Nat) (st : MachState) (src dst len : Nat) :
    ((Hook.hook arch vp1 vp2 st src dst len).1 = .error .ToSmall →
      (Hook.hook arch vp1 vp2 st src dst len).2 = st)
  ∧ ((TrampolineHook.hook arch g vp1 vp2 st src dst len).1 = .error .ToSmall →
      (TrampolineHook.hook arch g vp1 vp2 st src dst len).2 = st)
  ∧ (arch = .other → JMP_SIZE arch ≤ len →
      (Hook.hook arch none vp2 st src dst len).1 = .error .InvalidTarget
    ∧ ((Hook.hook arch none vp2 st src dst len).2).mem = fillBytes st.mem src 0x90 len
    ∧ ((Hook.hook arch none vp2 st src dst len).2).prot
        = setRange st.prot src len PAGE_EXECUTE_READWRITE) := by
  refine ⟨?_, ?_, ?_⟩
  · intro hok
    by_cases hl : len < JMP_SIZE arch
    · rw [Hook.hook_toSmall_eq arch vp1 vp2 st src dst len hl]
    · exfalso
      cases arch with
      | w32 =>
        simp only [JMP_SIZE] at hl
        cases vp1 <;> cases vp2 <;>
          simp [Hook.hook, VirtualProtect, JMP_SIZE, hl] at hok
      | w64 =>
        simp only [JMP_SIZE] at hl
        cases vp1 <;> cases vp2 <;>
          simp [Hook.hook, VirtualProtect, JMP_SIZE, hl] at hok
      | other =>
        simp only [JMP_SIZE] at hl
        cases vp1 <;>
          simp [Hook.hook, VirtualProtect, JMP_SIZE, hl] at hok
  · intro hok
    by_cases hl : len < JMP_SIZE arch
    · rw [TrampolineHook.tramp_hook_toSmall_eq arch g vp1 vp2 st src dst len hl]
    · exfalso
      cases arch with
      | w32 =>
        simp only [JMP_SIZE] at hl
        cases vp1 <;> cases vp2 <;>
          simp [TrampolineHook.hook, Hook.hook, VirtualProtect, VirtualAlloc,
            JMP_SIZE, hl] at hok
      | w64 =>
        simp only [JMP_SIZE] at hl
        cases vp1 <;> cases vp2 <;>
          simp [TrampolineHook.hook, Hook.hook, VirtualProtect, VirtualAlloc,
            JMP_SIZE, hl] at hok
      | other =>
        simp only [JMP_SIZE] at hl
        simp [TrampolineHook.hook, VirtualAlloc, JMP_SIZE, hl] at hok
  · intro harch hlen
    subst harch
    simp only [JMP_SIZE] at hlen
    rw [Hook.hook_other_eq vp2 st src dst len hlen]
    exact ⟨rfl, rfl, rfl⟩

theorem validation_failures_and_their_effects_witness :
    (Hook.hook .w64 none none st0 1000 2000 4).2 = st0
  ∧ (TrampolineHook.hook .w64 5000 none none st0 1000 2000 4).2 = st0
  ∧ (Hook.hook .other none none st0 1000 2000 14).1 = .error .InvalidTarget :=
  ⟨(validation_failures_and_their_effects .w64 none none 5000 st0 1000 2000 4).1 (by decide),
   (validation_failures_and_their_effects .w64 none none 5000 st0 1000 2000 4).2.1 (by decide),
   ((validation_failures_and_their_effects .other none none 5000 st0 1000 2000 14).2.2
      rfl (by decide)).1⟩

/-- C2 counterexample: Hook::hook on an unsupported pointer width with a
length passing the minimum check fails with InvalidTarget only after a
memory write: the byte at the source address has already been replaced by
the 0x90 filler. -/
theorem invalidTarget_after_mutation_cex :
    (Hook.hook .other none none st0 1000 2000 14).1 = .error .InvalidTarget
  ∧ (Hook.hook .other none none st0 1000 2000 14).2.mem 1000 = 0x90
  ∧ st0.mem 1000 = 7 :=
  ⟨by decide, by decide, by decide⟩

/-- C3 (amended): every Hook::hook and Hook::unhook call that changes the
page protection of the patched region (assumed uniformly protected, as the
code remembers only the first page's previous flags) restores it to its
pre-patch value by the end of the write sequence, on success as well as on
failing paths, except when the restoring protection call itself fails and
except on the InvalidTarget path of Hook::hook, which returns with the
region still PAGE_EXECUTE_READWRITE. -/
theorem protection_restored_after_write_sequence (arch : Arch) (st : MachState)
    (src dst len : Nat) (h : Hook)
    (huni : ∀ i, i < len → st.prot (src + i) = st.prot src)
    (huni2 : ∀ i, i < h.len → st.prot (h.src + i) = st.prot h.src) :
    (arch ≠ .other → ((Hook.hook arch none none st src dst len).2).prot = st.prot)
  ∧ ((Hook.unhook none none h st).2.2).prot = st.prot := by
  constructor
  · intro harch
    cases arch with
    | w32 =>
      by_cases hlen : 5 ≤ len
      · rw [Hook.hook_w32_eq st src dst len hlen]
        exact setRange_restore st.prot src len PAGE_EXECUTE_READWRITE huni
      · rw [Hook.hook_toSmall_eq .w32 none none st src dst len
          (by simp only [JMP_SIZE]; omega)]
    | w64 =>
      by_cases hlen : 14 ≤ len
      · rw [Hook.hook_w64_eq st src dst len hlen]
        exact setRange_restore st.prot src len PAGE_EXECUTE_READWRITE huni
      · rw [Hook.hook_toSmall_eq .w64 none none st src dst len
          (by simp only [JMP_SIZE]; omega)]
    | other => exact absurd rfl harch
  · by_cases ha : h.active = true
    · rw [Hook.unhook_ok_eq h st ha]
      exact setRange_restore st.prot h.src h.len PAGE_EXECUTE_READWRITE huni2
    · have ha2 : h.active = false := by
        cases hb : h.active
        · rfl
        · exact absurd hb ha
      rw [Hook.unhook_inactive_eq none none h st ha2]

theorem protection_restored_after_write_sequence_witness :
    ((Hook.hook .w64 none none st0 1000 2000 14).2).prot = st0.prot
  ∧ ((Hook.unhook none none (Hook.mk 1000 14 (List.replicate 14 9) true) st0).2.2).prot
      = st0.prot :=
  ⟨(protection_restored_after_write_sequence .w64 st0 1000 2000 14
      (Hook.mk 1000 14 (List.replicate 14 9) true) (fun i _ => rfl) (fun i _ => rfl)).1
      (by decide),
   (protection_restored_after_write_sequence .w64 st0 1000 2000 14
      (Hook.mk 1000 14 (List.replicate 14 9) true) (fun i _ => rfl) (fun i _ => rfl)).2⟩

/-- C3 counterexample: on the InvalidTarget path of Hook::hook the failing
operation has changed the page protection of the patched region and returns
without restoring it: the region is left PAGE_EXECUTE_READWRITE (0x40)
instead of its previous value (0x20 in this state). -/
theorem invalidTarget_leaves_rwx_cex :
    (Hook.hook .other none none st0 1000 2000 14).1 = .error .InvalidTarget
  ∧ (Hook.hook .other none none st0 1000 2000 14).2.prot 1000 = 0x40
  ∧ st0.prot 1000 = 0x20 :=
  ⟨by decide, by decide, by decide⟩

/-- C7: the code never tests the result of VirtualAlloc. When the OS
allocation of the executable gateway fails (VirtualAlloc answers with the
null pointer, address 0 with an empty allocation log), TrampolineHook::hook
does not fail with a platform error: it copies the source bytes through the
null gateway pointer, overwriting memory at address 0, and returns success
carrying gateway address 0. -/
theorem alloc_failure_unchecked :
    (TrampolineHook.hook .w64 0 none none stA 4096 8192 14).1
      = .ok (TrampolineHook.mk 0 (Hook.mk 4096 14 (List.replicate 14 7) true))
  ∧ (TrampolineHook.hook .w64 0 none none stA 4096 8192 14).2.mem 0 = 7
  ∧ stA.mem 0 = 3
  ∧ (TrampolineHook.hook .w64 0 none none stA 4096 8192 14).2.allocCalls = [] :=
  ⟨by decide, by decide, by decide, by decide⟩

/-- Unfolding of a 32 bit Hook::hook whose restoring protection call fails:
the patch bytes are already written, the region is left
PAGE_EXECUTE_READWRITE, and the OS error is returned. -/
theorem Hook.hook_w32_vp2_fail_eq (e : Nat) (st : MachState) (src dst len : Nat)
    (hlen : 5 ≤ len) :
    Hook.hook .w32 none (some e) st src dst len =
      (.error (.Windows e),
       { mem := writeBytes (writeBytes (fillBytes st.mem src 0x90 len) src (leBytes 4 0xE9))
                  (src + 1) (leBytes 4 (disp32 src dst)),
         prot := setRange st.prot src len PAGE_EXECUTE_READWRITE,
         allocCalls := st.allocCalls, freeCalls := st.freeCalls }) := by
  unfold Hook.hook
  rw [if_neg (by simp only [JMP_SIZE]; omega)]
  rfl

/-- Unfolding of a 64 bit Hook::hook whose restoring protection call fails:
the patch bytes are already written, the region is left
PAGE_EXECUTE_READWRITE, and the OS error is returned. -/
theorem Hook.hook_w64_vp2_fail_eq (e : Nat) (st : MachState) (src dst len : Nat)
    (hlen : 14 ≤ len) :
    Hook.hook .w64 none (some e) st src dst len =
      (.error (.Windows e),
       { mem := writeBytes (fillBytes st.mem src 0x90 len) src (jmpBytes64 dst),
         prot := setRange st.prot src len PAGE_EXECUTE_READWRITE,
         allocCalls := st.allocCalls, freeCalls := st.freeCalls }) := by
  unfold Hook.hook
  rw [if_neg (by simp only [JMP_SIZE]; omega)]
  rfl

/-- Unfolding of a 32 bit TrampolineHook::hook whose delegated inner
Hook::hook fails at its restoring protection call: the gateway stays
allocated and prepared, nothing is freed, and the inner error is
returned. -/
theorem TrampolineHook.tramp_hook_w32_vp2_fail_eq (e : Nat) (st : MachState)
    (src dst len g : Nat) (hlen : 5 ≤ len) (hg : g ≠ 0) :
    TrampolineHook.hook .w32 g none (some e) st src dst len =
      (.error (.Windows e),
       { mem := writeBytes (writeBytes (fillBytes (gwPrepMem32 st.mem src len g) src 0x90 len)
                  src (leBytes 4 0xE9)) (src + 1) (leBytes 4 (disp32 src dst)),
         prot := setRange st.prot src len PAGE_EXECUTE_READWRITE,
         allocCalls := st.allocCalls ++ [g], freeCalls := st.freeCalls }) := by
  unfold TrampolineHook.hook
  rw [if_neg (by simp only [JMP_SIZE]; omega)]
  simp only [VirtualAlloc, if_neg hg]
  rw [Hook.hook_w32_vp2_fail_eq e _ src dst len hlen]
  rfl

/-- Unfolding of a 64 bit TrampolineHook::hook whose delegated inner
Hook::hook fails at its restoring protection call: the gateway stays
allocated and prepared, nothing is freed, and the inner error is
returned. -/
theorem TrampolineHook.tramp_hook_w64_vp2_fail_eq (e : Nat) (st : MachState)
    (src dst len g : Nat) (hlen : 14 ≤ len) (hg : g ≠ 0) :
    TrampolineHook.hook .w64 g none (some e) st src dst len =
      (.error (.Windows e),
       { mem := writeBytes (fillBytes (gwPrepMem64 st.mem src len g) src 0x90 len)
                  src (jmpBytes64 dst),
         prot := setRange st.prot src len PAGE_EXECUTE_READWRITE,
         allocCalls := st.allocCalls ++ [g], freeCalls := st.freeCalls }) := by
  unfold TrampolineHook.hook
  rw [if_neg (by simp only [JMP_SIZE]; omega)]
  simp only [VirtualAlloc, if_neg hg]
  rw [Hook.hook_w64_vp2_fail_eq e _ src dst len hlen]
  rfl

/-- C8: whenever the delegated inner Hook::hook step of TrampolineHook::hook
fails - at its first protection call, whatever the second would have
answered, or at its restoring protection call after the patch bytes are
written (the only failure modes the delegated call has once the shared
length check has passed and the width dispatch has not already returned) -
the inner error is returned while the already-allocated gateway is not
released: the allocation is logged and the free log is untouched, so the
gateway allocation remains live. -/
theorem inner_hook_failure_leaks_gateway (arch : Arch) (e : Nat) (vp2 : Option Nat)
    (st : MachState) (src dst len g : Nat) (harch : arch ≠ .other)
    (hlen : JMP_SIZE arch ≤ len) (hg : g ≠ 0) :
    ((TrampolineHook.hook arch g (some e) vp2 st src dst len).1 = .error (.Windows e)
      ∧ (TrampolineHook.hook arch g (some e) vp2 st src dst len).2.allocCalls
          = st.allocCalls ++ [g]
      ∧ (TrampolineHook.hook arch g (some e) vp2 st src dst len).2.freeCalls = st.freeCalls)
  ∧ ((TrampolineHook.hook arch g none (some e) st src dst len).1 = .error (.Windows e)
      ∧ (TrampolineHook.hook arch g none (some e) st src dst len).2.allocCalls
          = st.allocCalls ++ [g]
      ∧ (TrampolineHook.hook arch g none (some e) st src dst len).2.freeCalls
          = st.freeCalls) := by
  cases arch with
  | w32 =>
    simp only [JMP_SIZE] at hlen
    rw [TrampolineHook.hook_w32_vp1_fail_eq e vp2 st src dst len g hlen hg]
    rw [TrampolineHook.tramp_hook_w32_vp2_fail_eq e st src dst len g hlen hg]
    exact ⟨⟨rfl, rfl, rfl⟩, ⟨rfl, rfl, rfl⟩⟩
  | w64 =>
    simp only [JMP_SIZE] at hlen
    rw [TrampolineHook.hook_w64_vp1_fail_eq e vp2 st src dst len g hlen hg]
    rw [TrampolineHook.tramp_hook_w64_vp2_fail_eq e st src dst len g hlen hg]
    exact ⟨⟨rfl, rfl, rfl⟩, ⟨rfl, rfl, rfl⟩⟩
  | other => exact absurd rfl harch

theorem inner_hook_failure_leaks_gateway_witness :
    ((TrampolineHook.hook .w64 5000 (some 6) none st0 1000 2000 14).1 = .error (.Windows 6)
      ∧ (TrampolineHook.hook .w64 5000 (some 6) none st0 1000 2000 14).2.allocCalls
          = st0.allocCalls ++ [5000]
      ∧ (TrampolineHook.hook .w64 5000 (some 6) none st0 1000 2000 14).2.freeCalls
          = st0.freeCalls)
  ∧ ((TrampolineHook.hook .w64 5000 none (some 6) st0 1000 2000 14).1 = .error (.Windows 6)
      ∧ (TrampolineHook.hook .w64 5000 none (some 6) st0 1000 2000 14).2.allocCalls
          = st0.allocCalls ++ [5000]
      ∧ (TrampolineHook.hook .w64 5000 none (some 6) st0 1000 2000 14).2.freeCalls
          = st0.freeCalls) :=
  inner_hook_failure_leaks_gateway .w64 6 none st0 1000 2000 14 5000
    (by decide) (by decide) (by decide)

/-- The writes Hook::hook performs on a 64 bit target all land inside the
patched region, so a read of a disjoint range sees the underlying memory. -/
theorem readBytes_hook_patch_w64_disjoint (B : Nat → Nat) (src dst len b n : Nat)
    (h1 : b + n ≤ src ∨ src + len ≤ b) (h14 : 14 ≤ len) :
    readBytes (writeBytes (fillBytes B src 0x90 len) src (jmpBytes64 dst)) b n
      = readBytes B b n := by
  rw [readBytes_writeBytes_disjoint _ _ _ _ _ (by rw [jmpBytes64_length]; omega)]
  unfold fillBytes
  rw [readBytes_writeBytes_disjoint _ _ _ _ _ (by rw [List.length_replicate]; omega)]

/-- The writes Hook::hook performs on a 32 bit target all land inside the
patched region, so a read of a disjoint range sees the underlying memory. -/
theorem readBytes_hook_patch_w32_disjoint (B : Nat → Nat) (src dst len b n : Nat)
    (h1 : b + n ≤ src ∨ src + len ≤ b) (h5 : 5 ≤ len) :
    readBytes (writeBytes (writeBytes (fillBytes B src 0x90 len) src (leBytes 4 0xE9))
      (src + 1) (leBytes 4 (disp32 src dst))) b n = readBytes B b n := by
  rw [readBytes_writeBytes_disjoint _ _ _ _ _ (by rw [leBytes_length]; omega)]
  rw [readBytes_writeBytes_disjoint _ _ _ _ _ (by rw [leBytes_length]; omega)]
  unfold fillBytes
  rw [readBytes_writeBytes_disjoint _ _ _ _ _ (by rw [List.length_replicate]; omega)]

/-- The 32 bit displacement value is below 2 ^ 32. -/
theorem disp32_lt (a b : Nat) : disp32 a b < 2 ^ 32 := by
  unfold disp32
  have h2 : ((2 : Int) ^ 32) = 4294967296 := by norm_num
  rw [h2]
  have h3 : ((2 : Nat) ^ 32) = 4294967296 := by norm_num
  rw [h3]
  omega

/-- C5: after a successful TrampolineHook::hook through a genuine (nonnull,
disjoint from the patched region) gateway allocation, the first len bytes
at the gateway address equal the pre hook bytes of source, and the bytes at
offset len of the gateway are a jump encoding whose target resolves to
src + len. -/
theorem trampoline_gateway_content (arch : Arch) (st : MachState)
    (src dst len g : Nat) (t : TrampolineHook)
    (hlen : JMP_SIZE arch ≤ len) (hg : g ≠ 0)
    (hdisj : src + len ≤ g ∨ g + (len + JMP_SIZE arch) ≤ src)
    (hok : (TrampolineHook.hook arch g none none st src dst len).1 = .ok t) :
    t.gateway = g
  ∧ readBytes ((TrampolineHook.hook arch g none none st src dst len).2).mem g len
      = readBytes st.mem src len
  ∧ jumpResolvesTo arch ((TrampolineHook.hook arch g none none st src dst len).2).mem
      (g + len) (src + len) := by
  cases arch with
  | w64 =>
    simp only [JMP_SIZE] at hlen hdisj
    rw [TrampolineHook.tramp_hook_w64_eq st src dst len g hlen hg] at hok ⊢
    have h2 : Except.ok (ε := Error) (TrampolineHook.mk g
        (Hook.mk src len (readBytes (gwPrepMem64 st.mem src len g) src len) true))
        = Except.ok t := hok
    cases h2
    have hgw : readBytes (writeBytes (fillBytes (gwPrepMem64 st.mem src len g) src 0x90 len)
        src (jmpBytes64 dst)) g len = readBytes st.mem src len := by
      rw [readBytes_hook_patch_w64_disjoint _ _ dst _ _ _ (by omega) hlen]
      unfold gwPrepMem64
      rw [readBytes_writeBytes_disjoint _ _ _ _ _ (by rw [jmpBytes64_length]; omega)]
      rw [readBytes_writeBytes _ _ _ _ (readBytes_length _ _ _)]
      unfold fillBytes
      rw [readBytes_writeBytes_disjoint _ _ _ _ _ (by rw [List.length_replicate]; omega)]
    have hjr : readBytes (writeBytes (fillBytes (gwPrepMem64 st.mem src len g) src 0x90 len)
        src (jmpBytes64 dst)) (g + len) 14 = jmpBytes64 (src + len) := by
      rw [readBytes_hook_patch_w64_disjoint _ _ dst _ _ _ (by omega) hlen]
      unfold gwPrepMem64
      exact readBytes_writeBytes _ _ _ _ (jmpBytes64_length _)
    rw [show (14 : Nat) = 6 + 8 from rfl, readBytes_add] at hjr
    rw [show jmpBytes64 (src + len)
        = [0xFF, 0x25, 0x00, 0x00, 0x00, 0x00] ++ leBytes 8 ((src + len) % 2 ^ 64)
        from rfl] at hjr
    have hsplit := List.append_inj hjr (by rw [readBytes_length]; rfl)
    refine ⟨rfl, hgw, hsplit.1, ?_⟩
    have hval : leVal (readBytes (writeBytes (fillBytes (gwPrepMem64 st.mem src len g)
        src 0x90 len) src (jmpBytes64 dst)) (g + len + 6) 8) = (src + len) % 2 ^ 64 := by
      rw [hsplit.2, leVal_leBytes]
      have h64 : (256 : Nat) ^ 8 = 2 ^ 64 := by norm_num
      rw [h64]
      exact Nat.mod_mod_of_dvd _ dvd_rfl
    exact hval
  | w32 =>
    simp only [JMP_SIZE] at hlen hdisj
    rw [TrampolineHook.tramp_hook_w32_eq st src dst len g hlen hg] at hok ⊢
    have h2 : Except.ok (ε := Error) (TrampolineHook.mk g
        (Hook.mk src len (readBytes (gwPrepMem32 st.mem src len g) src len) true))
        = Except.ok t := hok
    cases h2
    have hgw : readBytes (writeBytes (writeBytes (fillBytes (gwPrepMem32 st.mem src len g)
        src 0x90 len) src (leBytes 4 0xE9)) (src + 1) (leBytes 4 (disp32 src dst))) g len
        = readBytes st.mem src len := by
      rw [readBytes_hook_patch_w32_disjoint _ _ dst _ _ _ (by omega) hlen]
      unfold gwPrepMem32
      rw [readBytes_writeBytes_disjoint _ _ _ _ _ (by rw [leBytes_length]; omega)]
      rw [readBytes_writeBytes_disjoint _ _ _ _ _ (by rw [leBytes_length]; omega)]
      rw [readBytes_writeBytes _ _ _ _ (readBytes_length _ _ _)]
      unfold fillBytes
      rw [readBytes_writeBytes_disjoint _ _ _ _ _ (by rw [List.length_replicate]; omega)]
    have h5r : readBytes (writeBytes (writeBytes (fillBytes (gwPrepMem32 st.mem src len g)
        src 0x90 len) src (leBytes 4 0xE9)) (src + 1) (leBytes 4 (disp32 src dst))) (g + len) 5
        = 0xE9 :: leBytes 4 (disp32 g src) := by
      rw [readBytes_hook_patch_w32_disjoint _ _ dst _ _ _ (by omega) hlen]
      unfold gwPrepMem32
      exact readBytes_e9_encoding _ _ _
    rw [show (5 : Nat) = 4 + 1 from rfl, readBytes_succ] at h5r
    injection h5r with hhd htl
    refine ⟨rfl, hgw, hhd, ?_⟩
    have hval : leVal (readBytes (writeBytes (writeBytes (fillBytes (gwPrepMem32 st.mem src len g)
        src 0x90 len) src (leBytes 4 0xE9)) (src + 1) (leBytes 4 (disp32 src dst))) (g + len + 1) 4)
        = disp32 g src := by
      rw [htl, leVal_leBytes]
      have h32 : (256 : Nat) ^ 4 = 2 ^ 32 := by norm_num
      rw [h32]
      exact Nat.mod_eq_of_lt (disp32_lt g src)
    have hgoal : (g + len + 5 + leVal (readBytes (writeBytes (writeBytes (fillBytes
        (gwPrepMem32 st.mem src len g) src 0x90 len) src (leBytes 4 0xE9)) (src + 1)
        (leBytes 4 (disp32 src dst))) (g + len + 1) 4)) % 2 ^ 32 = (src + len) % 2 ^ 32 := by
      rw [hval]
      have hd : ((disp32 g src : Nat) : Int) = ((src : Int) - (g : Int) - 5) % 4294967296 := by
        unfold disp32
        have h2i : ((2 : Int) ^ 32) = 4294967296 := by norm_num
        rw [h2i]
        exact Int.toNat_of_nonneg (Int.emod_nonneg _ (by norm_num))
      have h3 : ((2 : Nat) ^ 32) = 4294967296 := by norm_num
      rw [h3]
      omega
    exact hgoal
  | other =>
    exfalso
    have hl2 : ¬ len < JMP_SIZE .other := by omega
    simp [TrampolineHook.hook, hl2] at hok

theorem trampoline_gateway_content_witness :
    (TrampolineHook.mk 5000 (Hook.mk 1000 14 (List.replicate 14 7) true)).gateway = 5000
  ∧ readBytes ((TrampolineHook.hook .w64 5000 none none st0 1000 2000 14).2).mem 5000 14
      = readBytes st0.mem 1000 14
  ∧ jumpResolvesTo .w64 ((TrampolineHook.hook .w64 5000 none none st0 1000 2000 14).2).mem
      (5000 + 14) (1000 + 14) :=
  trampoline_gateway_content .w64 st0 1000 2000 14 5000
    (TrampolineHook.mk 5000 (Hook.mk 1000 14 (List.replicate 14 7) true))
    (by decide) (by decide) (by decide) (by decide)

/-- C6 (amended): when every OS call succeeds, the gateway of a successful
TrampolineHook::hook is released exactly once: the hook itself frees
nothing, the first unhook appends exactly one release of the gateway
address, and every further unhook or destruction of the now inactive handle
is a no-op that frees nothing. The guarantee needs the inner unhook to
succeed: if it fails after the free, the handle stays active and a later
unhook releases the gateway a second time. -/
theorem gateway_freed_once_on_success (arch : Arch) (st : MachState)
    (src dst len g : Nat) (t : TrampolineHook) (harch : arch ≠ .other)
    (hlen : JMP_SIZE arch ≤ len) (hg : g ≠ 0)
    (hok : (TrampolineHook.hook arch g none none st src dst len).1 = .ok t) :
    (TrampolineHook.unhook none none none t
        ((TrampolineHook.hook arch g none none st src dst len).2)).1 = .ok ()
  ∧ ((TrampolineHook.unhook none none none t
        ((TrampolineHook.hook arch g none none st src dst len).2)).2.2).freeCalls
      = st.freeCalls ++ [g]
  ∧ ∀ f w1 w2, TrampolineHook.unhook f w1 w2
        ((TrampolineHook.unhook none none none t
          ((TrampolineHook.hook arch g none none st src dst len).2)).2.1)
        ((TrampolineHook.unhook none none none t
          ((TrampolineHook.hook arch g none none st src dst len).2)).2.2)
      = (.ok (),
         (TrampolineHook.unhook none none none t
           ((TrampolineHook.hook arch g none none st src dst len).2)).2.1,
         (TrampolineHook.unhook none none none t
           ((TrampolineHook.hook arch g none none st src dst len).2)).2.2) := by
  cases arch with
  | w64 =>
    simp only [JMP_SIZE] at hlen
    rw [TrampolineHook.tramp_hook_w64_eq st src dst len g hlen hg] at hok ⊢
    have h2 : Except.ok (ε := Error) (TrampolineHook.mk g
        (Hook.mk src len (readBytes (gwPrepMem64 st.mem src len g) src len) true))
        = Except.ok t := hok
    cases h2
    rw [TrampolineHook.tramp_unhook_ok_eq (TrampolineHook.mk g
      (Hook.mk src len (readBytes (gwPrepMem64 st.mem src len g) src len) true)) _ rfl]
    exact ⟨rfl, rfl, fun f w1 w2 => TrampolineHook.tramp_unhook_inactive_eq f w1 w2 _ _ rfl⟩
  | w32 =>
    simp only [JMP_SIZE] at hlen
    rw [TrampolineHook.tramp_hook_w32_eq st src dst len g hlen hg] at hok ⊢
    have h2 : Except.ok (ε := Error) (TrampolineHook.mk g
        (Hook.mk src len (readBytes (gwPrepMem32 st.mem src len g) src len) true))
        = Except.ok t := hok
    cases h2
    rw [TrampolineHook.tramp_unhook_ok_eq (TrampolineHook.mk g
      (Hook.mk src len (readBytes (gwPrepMem32 st.mem src len g) src len) true)) _ rfl]
    exact ⟨rfl, rfl, fun f w1 w2 => TrampolineHook.tramp_unhook_inactive_eq f w1 w2 _ _ rfl⟩
  | other => exact absurd rfl harch

theorem gateway_freed_once_on_success_witness :
    (TrampolineHook.unhook none none none
        (TrampolineHook.mk 5000 (Hook.mk 1000 14 (List.replicate 14 7) true))
        ((TrampolineHook.hook .w64 5000 none none st0 1000 2000 14).2)).1 = .ok ()
  ∧ ((TrampolineHook.unhook none none none
        (TrampolineHook.mk 5000 (Hook.mk 1000 14 (List.replicate 14 7) true))
        ((TrampolineHook.hook .w64 5000 none none st0 1000 2000 14).2)).2.2).freeCalls
      = st0.freeCalls ++ [5000] :=
  ⟨(gateway_freed_once_on_success .w64 st0 1000 2000 14 5000
      (TrampolineHook.mk 5000 (Hook.mk 1000 14 (List.replicate 14 7) true))
      (by decide) (by decide) (by decide) (by decide)).1,
   (gateway_freed_once_on_success .w64 st0 1000 2000 14 5000
      (TrampolineHook.mk 5000 (Hook.mk 1000 14 (List.replicate 14 7) true))
      (by decide) (by decide) (by decide) (by decide)).2.1⟩

/-- C6 counterexample: the gateway is not always released exactly once.
Concrete run on a 64 bit target: a successful hook (second conjunct), then
an unhook whose VirtualFree succeeds but whose inner protection call fails
- it returns the error with the handle unchanged and still active (third
conjunct) - then a second unhook on that returned handle: VirtualFree runs
again on the same gateway address, so the free log holds the address twice
(first conjunct). -/
theorem gateway_double_free_cex :
    ((TrampolineHook.unhook none none none
        ((TrampolineHook.unhook none (some 1) none
          (TrampolineHook.mk 5000 (Hook.mk 1000 14 (List.replicate 14 7) true))
          ((TrampolineHook.hook .w64 5000 none none st0 1000 2000 14).2)).2.1)
        ((TrampolineHook.unhook none (some 1) none
          (TrampolineHook.mk 5000 (Hook.mk 1000 14 (List.replicate 14 7) true))
          ((TrampolineHook.hook .w64 5000 none none st0 1000 2000 14).2)).2.2)).2.2).freeCalls
      = [5000, 5000]
  ∧ (TrampolineHook.hook .w64 5000 none none st0 1000 2000 14).1
      = .ok (TrampolineHook.mk 5000 (Hook.mk 1000 14 (List.replicate 14 7) true))
  ∧ (TrampolineHook.unhook none (some 1) none
        (TrampolineHook.mk 5000 (Hook.mk 1000 14 (List.replicate 14 7) true))
        ((TrampolineHook.hook .w64 5000 none none st0 1000 2000 14).2)).2.1
      = TrampolineHook.mk 5000 (Hook.mk 1000 14 (List.replicate 14 7) true) :=
  ⟨by decide, by decide, by decide⟩

end Trampoline
